import Mathlib

/-!
Shallow embedding of `app/(main)/transaction/_components/transaction-form.jsx`
(the `AddTransactionForm` component of the MoneyMap repository): the
transaction-draft data model, the form's default values, the receipt-scan
handler `handleScanComplete`, and the voice-command interpreter
`processVoiceCommand`.

JavaScript strings are modelled as `List Char`; the JS string operations and
the character classes of the two regexes involved are modelled on ASCII
(`\d`, `\s`, `.`, `toLowerCase`), which covers every character class the
component's patterns use.
-/

namespace MoneyMap

/-- Character list of a string literal (JS strings are modelled as `List Char`). -/
def s (x : String) : List Char := x.data

/-- JS `t.includes(pat)`: `pat` occurs as a contiguous substring of `t`. -/
def jsIncludes : List Char → List Char → Bool
  | t@([]), pat => pat.isPrefixOf t
  | t@(_ :: rest), pat => pat.isPrefixOf t || jsIncludes rest pat

/-- JS regex class `\s`, ASCII part: space, tab, newline, carriage return,
vertical tab, form feed. -/
def jsWs (c : Char) : Bool :=
  c = ' ' || c = '\t' || c = '\n' || c = '\r' || c = '\x0b' || c = '\x0c'

/-- JS regex `.` (no `s` flag): any character except a line terminator. -/
def jsDot (c : Char) : Bool := c ≠ '\n' && c ≠ '\r'

/-- JS `String.prototype.trim` (ASCII whitespace). -/
def jsTrim (l : List Char) : List Char :=
  ((l.dropWhile jsWs).reverse.dropWhile jsWs).reverse

/-- JS `String.prototype.toLowerCase`, on ASCII letters. -/
def lowerStr (l : List Char) : List Char := l.map Char.toLower

/-- Greedy parse of `\d+(\.\d+)?` at the head of `l`: the matched numeric text
and the remainder. For this pattern greedy parsing coincides with backtracking
regex semantics: shortening a digit run leaves a digit as the next character,
which neither `\.` nor a literal space can match, so no shorter attempt can
ever succeed where the greedy one fails. -/
def parseNumber (l : List Char) : Option (List Char × List Char) :=
  match l.span Char.isDigit with
  | ([], _) => none
  | (ds, '.' :: rest2) =>
    match rest2.span Char.isDigit with
    | ([], _) => some (ds, '.' :: rest2)
    | (fs, rest3) => some (ds ++ '.' :: fs, rest3)
  | (ds, rest) => some (ds, rest)

/-- One attempt of the amount regex
`/amount (\d+(\.\d+)?)|(\d+(\.\d+)?) dollars/` anchored at the head of `l`:
the left alternative is tried first, then the right one, as in JS alternation.
Returns the numeric text `amountMatch[1] || amountMatch[3]` on success. -/
def amountMatchAt (l : List Char) : Option (List Char) :=
  match (if (s "amount ").isPrefixOf l then
           (parseNumber (l.drop 7)).map Prod.fst
         else none) with
  | some n => some n
  | none =>
    match parseNumber l with
    | some (n, rest) => if (s " dollars").isPrefixOf rest then some n else none
    | none => none

/-- Leftmost match of the amount regex over the whole transcript, as
`transcript.match(...)` finds it: attempt at each start position from the
left, first success wins. -/
def amountRegexFirst : List Char → Option (List Char)
  | [] => none
  | l@(_ :: rest) =>
    match amountMatchAt l with
    | some n => some n
    | none => amountRegexFirst rest

/-- The keyword alternatives of the description regex terminator
`($|\s(amount|type|account|category|date))`. -/
def descKeywords : List (List Char) :=
  [s "amount", s "type", s "account", s "category", s "date"]

/-- Whether the description regex can finish right here: either end of string,
or a whitespace character followed by one of the stop keywords. -/
def descTerminator (rest : List Char) : Bool :=
  match rest with
  | [] => true
  | c :: cs => jsWs c && descKeywords.any (fun k => k.isPrefixOf cs)

/-- Lazy capture of `(.+?)` followed by the terminator group: the shortest
non-empty run of `.`-matchable characters after which the terminator matches,
as the non-greedy quantifier finds it. -/
def descCaptureFrom (acc : List Char) : List Char → Option (List Char)
  | [] => none
  | c :: cs =>
    if jsDot c then
      if descTerminator cs then some (acc ++ [c])
      else descCaptureFrom (acc ++ [c]) cs
    else none

/-- Leftmost match of the description regex
`/description (.+?)($|\s(amount|type|account|category|date))/`, returning the
group-1 capture: scan start positions from the left; at a position where the
literal `"description "` matches, take the lazy capture if one exists,
otherwise keep scanning. -/
def descriptionMatch : List Char → Option (List Char)
  | [] => none
  | l@(_ :: rest) =>
    if (s "description ").isPrefixOf l then
      match descCaptureFrom [] (l.drop 12) with
      | some cap => some cap
      | none => descriptionMatch rest
    else descriptionMatch rest

/-- Transaction type enum of the draft. -/
inductive TxType
  | EXPENSE
  | INCOME
deriving DecidableEq, Repr

/-- Recurring-interval enum of the draft. -/
inductive RecurringInterval
  | DAILY
  | WEEKLY
  | MONTHLY
  | YEARLY
deriving DecidableEq, Repr

/-- An account as the component consumes it: `{ id, name, balance, isDefault }`. -/
structure Account where
  id : List Char
  name : List Char
  balance : Int
  isDefault : Bool
deriving DecidableEq, Repr

/-- A category as the component consumes it: `{ id, name, type }`. -/
structure Category where
  id : List Char
  name : List Char
  type : TxType
deriving DecidableEq, Repr

/-- The transaction draft held by the form: the fields registered with
`useForm`. `accountId`, `category` and `recurringInterval` may be absent
(JS `undefined`), modelled by `Option`; dates are modelled as integer day
indices, with "the current date" passed in as a parameter `today`. -/
structure Draft where
  type : TxType
  amount : List Char
  description : List Char
  accountId : Option (List Char)
  category : Option (List Char)
  date : Int
  isRecurring : Bool
  recurringInterval : Option RecurringInterval
deriving DecidableEq, Repr

/-- Type rule of `processVoiceCommand` (lines 178-184): `if` expense/spending
then type := EXPENSE `else if` income/earning then type := INCOME. -/
def applyType (t : List Char) (d : Draft) : Draft :=
  if jsIncludes t (s "expense") || jsIncludes t (s "spending") then
    { d with type := TxType.EXPENSE }
  else if jsIncludes t (s "income") || jsIncludes t (s "earning") then
    { d with type := TxType.INCOME }
  else d

/-- Amount rule (lines 187-192): on a match of the amount regex, set `amount`
to the captured numeric text. -/
def applyAmount (t : List Char) (d : Draft) : Draft :=
  match amountRegexFirst t with
  | some n => { d with amount := n }
  | none => d

/-- Date rule (lines 195-203): `if` "today" then current date `else if`
"yesterday" then current date minus one day. -/
def applyDate (today : Int) (t : List Char) (d : Draft) : Draft :=
  if jsIncludes t (s "today") then { d with date := today }
  else if jsIncludes t (s "yesterday") then { d with date := today - 1 }
  else d

/-- Description rule (lines 206-210): on a match of the description regex, set
`description` to the trimmed group-1 capture. -/
def applyDescription (t : List Char) (d : Draft) : Draft :=
  match descriptionMatch t with
  | some cap => { d with description := jsTrim cap }
  | none => d

/-- The category loop (lines 213-219): first category in list order whose
`"category " + name.toLowerCase()` occurs in the transcript; `break` on the
first hit. Returns that category's id. -/
def findCategory (cats : List Category) (t : List Char) : Option (List Char) :=
  match cats with
  | [] => none
  | c :: rest =>
    if jsIncludes t ((s "category ") ++ lowerStr c.name) then some c.id
    else findCategory rest t

/-- Category rule: set `category` to the id found by the loop, if any. -/
def applyCategory (cats : List Category) (t : List Char) (d : Draft) : Draft :=
  match findCategory cats t with
  | some cid => { d with category := some cid }
  | none => d

/-- The account loop (lines 222-228): first account in list order whose
`"account " + name.toLowerCase()` occurs in the transcript; `break` on the
first hit. Returns that account's id. -/
def findAccount (accts : List Account) (t : List Char) : Option (List Char) :=
  match accts with
  | [] => none
  | a :: rest =>
    if jsIncludes t ((s "account ") ++ lowerStr a.name) then some a.id
    else findAccount rest t

/-- Account rule: set `accountId` to the id found by the loop, if any. -/
def applyAccount (accts : List Account) (t : List Char) (d : Draft) : Draft :=
  match findAccount accts t with
  | some aid => { d with accountId := some aid }
  | none => d

/-- Recurring-flag rule (lines 231-237): `if` "recurring yes"/"set recurring"
then isRecurring := true `else if` "recurring no"/"not recurring" then
isRecurring := false. -/
def applyRecurringFlag (t : List Char) (d : Draft) : Draft :=
  if jsIncludes t (s "recurring yes") || jsIncludes t (s "set recurring") then
    { d with isRecurring := true }
  else if jsIncludes t (s "recurring no") || jsIncludes t (s "not recurring") then
    { d with isRecurring := false }
  else d

/-- Recurring-interval rule (lines 240-252): daily / weekly / monthly / yearly
checked in that order by an `if`/`else if` chain. -/
def applyInterval (t : List Char) (d : Draft) : Draft :=
  if jsIncludes t (s "daily") then
    { d with recurringInterval := some RecurringInterval.DAILY }
  else if jsIncludes t (s "weekly") then
    { d with recurringInterval := some RecurringInterval.WEEKLY }
  else if jsIncludes t (s "monthly") then
    { d with recurringInterval := some RecurringInterval.MONTHLY }
  else if jsIncludes t (s "yearly") then
    { d with recurringInterval := some RecurringInterval.YEARLY }
  else d

/-- Submit rule (lines 255-258): whether `handleSubmit(onSubmit)()` is invoked. -/
def submitRequested (t : List Char) : Bool :=
  jsIncludes t (s "submit") || jsIncludes t (s "save transaction")

/-- `processVoiceCommand(transcript)` (lines 176-259): the nine rule blocks
applied in source order to the draft, plus whether the submission pipeline was
triggered. The transcript argument is the already lower-cased final
transcript, exactly what the `onresult` handler passes in. -/
def processVoiceCommand (cats : List Category) (accts : List Account)
    (today : Int) (t : List Char) (d : Draft) : Draft × Bool :=
  (applyInterval t
    (applyRecurringFlag t
      (applyAccount accts t
        (applyCategory cats t
          (applyDescription t
            (applyDate today t
              (applyAmount t
                (applyType t d))))))),
   submitRequested t)

/-- The `onresult` handler (lines 154-160): lower-case the final transcript
and hand it to `processVoiceCommand`. -/
def processFinalResult (cats : List Category) (accts : List Account)
    (today : Int) (raw : List Char) (d : Draft) : Draft × Bool :=
  processVoiceCommand cats accts today (lowerStr raw) d

/-- Create-mode `defaultValues` (lines 73-80): type EXPENSE, empty amount and
description, the first account flagged `isDefault` (if any), the current
date, not recurring. `category` and `recurringInterval` are not given and so
are absent. -/
def createDefaults (accounts : List Account) (today : Int) : Draft :=
  { type := TxType.EXPENSE
    amount := s ""
    description := s ""
    accountId := (accounts.find? (fun ac => ac.isDefault)).map (fun ac => ac.id)
    category := none
    date := today
    isRecurring := false
    recurringInterval := none }

/-- The `initialData` prop in edit mode: an existing transaction. Its numeric
amount is modelled as an integer (the code stores `amount.toString()`). -/
structure InitialData where
  type : TxType
  amount : Int
  description : List Char
  accountId : List Char
  category : List Char
  date : Int
  isRecurring : Bool
  recurringInterval : Option RecurringInterval
deriving DecidableEq, Repr

/-- Edit-mode `defaultValues` (lines 61-72): all fields copied from
`initialData`, amount coerced to text; the spread
`...(initialData.recurringInterval && \x7b...\x7d)` includes
`recurringInterval` only when it is present. -/
def editInit (i : InitialData) : Draft :=
  { type := i.type
    amount := (toString i.amount).data
    description := i.description
    accountId := some i.accountId
    category := some i.category
    date := i.date
    isRecurring := i.isRecurring
    recurringInterval := i.recurringInterval }

/-- A scan result as `handleScanComplete` receives it: amount and date always
present (amount modelled as an integer, stored via `toString`), description
and category optional. -/
structure ScannedData where
  amount : Int
  date : Int
  description : Option (List Char)
  category : Option (List Char)
deriving DecidableEq, Repr

/-- `handleScanComplete(scannedData)` (lines 102-114): on a non-null result,
always overwrite amount and date; overwrite description / category only when
the JS truthiness test `if (scannedData.description)` /
`if (scannedData.category)` passes, i.e. the field is present and non-empty. -/
def handleScanComplete (sd : Option ScannedData) (d : Draft) : Draft :=
  match sd with
  | none => d
  | some sdata =>
    let d1 := { d with amount := (toString sdata.amount).data, date := sdata.date }
    let d2 := match sdata.description with
      | some ds => if ds.isEmpty then d1 else { d1 with description := ds }
      | none => d1
    match sdata.category with
    | some c => if c.isEmpty then d2 else { d2 with category := some c }
    | none => d2

/-- Draft invariant from the spec's data model: `recurringInterval` present
only when `isRecurring` is true. -/
def draftInv (d : Draft) : Bool :=
  !d.recurringInterval.isSome || d.isRecurring

/-- A concrete draft used as a starting state in witnesses and
counterexamples: the create-mode defaults with no accounts and day 0. -/
def d0 : Draft := createDefaults [] 0

/-! Record-update normal forms of the eight rule blocks, used to read off any
single field of the interpreter's result. -/

theorem applyType_eq (t : List Char) (d : Draft) :
    applyType t d =
    { d with type :=
        if jsIncludes t (s "expense") || jsIncludes t (s "spending") then TxType.EXPENSE
        else if jsIncludes t (s "income") || jsIncludes t (s "earning") then TxType.INCOME
        else d.type } := by
  unfold applyType
  by_cases h1 : (jsIncludes t (s "expense") || jsIncludes t (s "spending")) = true <;>
    by_cases h2 : (jsIncludes t (s "income") || jsIncludes t (s "earning")) = true <;>
      simp [h1, h2]

theorem applyAmount_eq (t : List Char) (d : Draft) :
    applyAmount t d = { d with amount := (amountRegexFirst t).getD d.amount } := by
  unfold applyAmount
  cases amountRegexFirst t <;> simp

theorem applyDate_eq (today : Int) (t : List Char) (d : Draft) :
    applyDate today t d =
    { d with date :=
        if jsIncludes t (s "today") then today
        else if jsIncludes t (s "yesterday") then today - 1
        else d.date } := by
  unfold applyDate
  by_cases h1 : jsIncludes t (s "today") = true <;>
    by_cases h2 : jsIncludes t (s "yesterday") = true <;>
      simp [h1, h2]

theorem applyDescription_eq (t : List Char) (d : Draft) :
    applyDescription t d =
    { d with description :=
        match descriptionMatch t with
        | some cap => jsTrim cap
        | none => d.description } := by
  unfold applyDescription
  cases descriptionMatch t <;> simp

theorem applyCategory_eq (cats : List Category) (t : List Char) (d : Draft) :
    applyCategory cats t d =
    { d with category :=
        match findCategory cats t with
        | some cid => some cid
        | none => d.category } := by
  unfold applyCategory
  cases findCategory cats t <;> simp

theorem applyAccount_eq (accts : List Account) (t : List Char) (d : Draft) :
    applyAccount accts t d =
    { d with accountId :=
        match findAccount accts t with
        | some aid => some aid
        | none => d.accountId } := by
  unfold applyAccount
  cases findAccount accts t <;> simp

theorem applyRecurringFlag_eq (t : List Char) (d : Draft) :
    applyRecurringFlag t d =
    { d with isRecurring :=
        if jsIncludes t (s "recurring yes") || jsIncludes t (s "set recurring") then true
        else if jsIncludes t (s "recurring no") || jsIncludes t (s "not recurring") then false
        else d.isRecurring } := by
  unfold applyRecurringFlag
  by_cases h1 : (jsIncludes t (s "recurring yes") || jsIncludes t (s "set recurring")) = true <;>
    by_cases h2 : (jsIncludes t (s "recurring no") || jsIncludes t (s "not recurring")) = true <;>
      simp [h1, h2]

theorem applyInterval_eq (t : List Char) (d : Draft) :
    applyInterval t d =
    { d with recurringInterval :=
        if jsIncludes t (s "daily") then some RecurringInterval.DAILY
        else if jsIncludes t (s "weekly") then some RecurringInterval.WEEKLY
        else if jsIncludes t (s "monthly") then some RecurringInterval.MONTHLY
        else if jsIncludes t (s "yearly") then some RecurringInterval.YEARLY
        else d.recurringInterval } := by
  unfold applyInterval
  by_cases h1 : jsIncludes t (s "daily") = true <;>
    by_cases h2 : jsIncludes t (s "weekly") = true <;>
      by_cases h3 : jsIncludes t (s "monthly") = true <;>
        by_cases h4 : jsIncludes t (s "yearly") = true <;>
          simp [h1, h2, h3, h4]

/-- Every field of the draft produced by one `processVoiceCommand` call, read
off from the sequential rule blocks. -/
theorem processVoiceCommand_fst (cats : List Category) (accts : List Account)
    (today : Int) (t : List Char) (d : Draft) :
    (processVoiceCommand cats accts today t d).1 =
    { type :=
        if jsIncludes t (s "expense") || jsIncludes t (s "spending") then TxType.EXPENSE
        else if jsIncludes t (s "income") || jsIncludes t (s "earning") then TxType.INCOME
        else d.type
      amount := (amountRegexFirst t).getD d.amount
      description :=
        match descriptionMatch t with
        | some cap => jsTrim cap
        | none => d.description
      accountId :=
        match findAccount accts t with
        | some aid => some aid
        | none => d.accountId
      category :=
        match findCategory cats t with
        | some cid => some cid
        | none => d.category
      date :=
        if jsIncludes t (s "today") then today
        else if jsIncludes t (s "yesterday") then today - 1
        else d.date
      isRecurring :=
        if jsIncludes t (s "recurring yes") || jsIncludes t (s "set recurring") then true
        else if jsIncludes t (s "recurring no") || jsIncludes t (s "not recurring") then false
        else d.isRecurring
      recurringInterval :=
        if jsIncludes t (s "daily") then some RecurringInterval.DAILY
        else if jsIncludes t (s "weekly") then some RecurringInterval.WEEKLY
        else if jsIncludes t (s "monthly") then some RecurringInterval.MONTHLY
        else if jsIncludes t (s "yearly") then some RecurringInterval.YEARLY
        else d.recurringInterval } := by
  simp only [processVoiceCommand, applyType_eq, applyAmount_eq, applyDate_eq,
    applyDescription_eq, applyCategory_eq, applyAccount_eq, applyRecurringFlag_eq,
    applyInterval_eq]

/-- The submit flag of one `processVoiceCommand` call. -/
theorem processVoiceCommand_snd (cats : List Category) (accts : List Account)
    (today : Int) (t : List Char) (d : Draft) :
    (processVoiceCommand cats accts today t d).2 = submitRequested t := rfl

/-- The category loop is `List.find?` over the categories in order. -/
theorem findCategory_eq (cats : List Category) (t : List Char) :
    findCategory cats t =
      (cats.find? (fun c => jsIncludes t ((s "category ") ++ lowerStr c.name))).map
        (fun c => c.id) := by
  induction cats with
  | nil => rfl
  | cons c rest ih =>
    unfold findCategory
    by_cases h : jsIncludes t ((s "category ") ++ lowerStr c.name) = true <;>
      simp [h, ih, List.find?]

/-- The account loop is `List.find?` over the accounts in order. -/
theorem findAccount_eq (accts : List Account) (t : List Char) :
    findAccount accts t =
      (accts.find? (fun a => jsIncludes t ((s "account ") ++ lowerStr a.name))).map
        (fun a => a.id) := by
  induction accts with
  | nil => rfl
  | cons a rest ih =>
    unfold findAccount
    by_cases h : jsIncludes t ((s "account ") ++ lowerStr a.name) = true <;>
      simp [h, ih, List.find?]

/-- C1 counterexample: the transcript "expense income" contains both the
substring "expense" and the substring "income", yet `processVoiceCommand`
sets the type to EXPENSE, not INCOME: the income check sits in the `else`
branch of the expense check, so the first rule wins, not the last. -/
theorem C1_counterexample :
    jsIncludes (s "expense income") (s "expense") = true
  ∧ jsIncludes (s "expense income") (s "income") = true
  ∧ (processVoiceCommand [] [] 0 (s "expense income") d0).1.type ≠ TxType.INCOME := by
  decide

/-- C1 (amended): for every transcript that contains both an expense keyword
("expense" or "spending") and an income keyword ("income" or "earning"),
`processVoiceCommand` sets the draft's type to EXPENSE: the checks form an
`if`/`else if` chain, so the expense check — evaluated first — wins. -/
theorem C1_expense_wins (cats : List Category) (accts : List Account)
    (today : Int) (t : List Char) (d : Draft)
    (h1 : (jsIncludes t (s "expense") || jsIncludes t (s "spending")) = true)
    (h2 : (jsIncludes t (s "income") || jsIncludes t (s "earning")) = true) :
    (processVoiceCommand cats accts today t d).1.type = TxType.EXPENSE := by
  rw [processVoiceCommand_fst]
  simp [h1]

/-- Witness for C1 (amended) at the transcript "expense income". -/
theorem C1_expense_wins_witness :
    (processVoiceCommand [] [] 0 (s "expense income") d0).1.type = TxType.EXPENSE :=
  C1_expense_wins [] [] 0 (s "expense income") d0 (by decide) (by decide)

/-- C2 counterexample: the create-mode default draft satisfies the invariant,
but one `processVoiceCommand` call on the transcript "daily" sets
`recurringInterval` to DAILY while leaving `isRecurring` false, breaking the
invariant that `recurringInterval` is present only when `isRecurring` is true. -/
theorem C2_counterexample :
    draftInv d0 = true
  ∧ draftInv ((processVoiceCommand [] [] 0 (s "daily") d0).1) = false := by
  decide

/-- C2 (amended): the create-mode defaults satisfy the invariant, edit-mode
initialization from data satisfying the invariant satisfies it, and
`processVoiceCommand` preserves it provided the transcript either enables
recurring ("recurring yes" / "set recurring") or contains none of the four
interval keywords and no disable phrase ("recurring no" / "not recurring");
an interval keyword without an enable phrase can break the invariant. -/
theorem C2_invariant :
    (∀ (accounts : List Account) (today : Int),
        draftInv (createDefaults accounts today) = true)
  ∧ (∀ i : InitialData, (i.recurringInterval.isSome = true → i.isRecurring = true) →
        draftInv (editInit i) = true)
  ∧ (∀ (cats : List Category) (accts : List Account) (today : Int)
        (t : List Char) (d : Draft), draftInv d = true →
        ((jsIncludes t (s "recurring yes") || jsIncludes t (s "set recurring")) = true
          ∨ (jsIncludes t (s "daily") = false ∧ jsIncludes t (s "weekly") = false
             ∧ jsIncludes t (s "monthly") = false ∧ jsIncludes t (s "yearly") = false
             ∧ jsIncludes t (s "recurring no") = false
             ∧ jsIncludes t (s "not recurring") = false)) →
        draftInv ((processVoiceCommand cats accts today t d).1) = true) := by
  refine ⟨fun _ _ => rfl, ?_, ?_⟩
  · intro i h
    simp only [draftInv, editInit]
    cases hri : i.recurringInterval
    · simp
    · have hr : i.isRecurring = true := h (by rw [hri]; rfl)
      simp [hr]
  · intro cats accts today t d hd hcond
    rw [processVoiceCommand_fst]
    simp only [draftInv]
    rcases hcond with henable | ⟨h1, h2, h3, h4, h5, h6⟩
    · simp [henable]
    · by_cases hyes :
        (jsIncludes t (s "recurring yes") || jsIncludes t (s "set recurring")) = true
      · simp [hyes]
      · simp only [Bool.not_eq_true] at hyes
        simp [hyes, h1, h2, h3, h4, h5, h6]
        cases hri : d.recurringInterval
        · exact Or.inl rfl
        · exact Or.inr (by simpa [draftInv, hri] using hd)

/-- Witness for C2 (amended): edit-mode initialization from a weekly recurring
transaction, and a voice command that enables recurring and sets an interval. -/
theorem C2_invariant_witness :
    draftInv (editInit
      ⟨TxType.EXPENSE, 5, s "", s "a1", s "c1", 0, true,
        some RecurringInterval.WEEKLY⟩) = true
  ∧ draftInv ((processVoiceCommand [] [] 0 (s "set recurring monthly") d0).1) = true :=
  ⟨C2_invariant.2.1 _ (fun _ => rfl),
   C2_invariant.2.2 [] [] 0 (s "set recurring monthly") d0 (by decide)
     (Or.inl (by decide))⟩

/-- C3 counterexample: the transcript "amount 500" contains the substring
"amount 50", yet the amount rule sets the amount to "500" — the regex captures
the whole greedy number, not the literal "50". -/
theorem C3_counterexample :
    jsIncludes (s "amount 500") (s "amount 50") = true
  ∧ (processVoiceCommand [] [] 0 (s "amount 500") d0).1.amount ≠ s "50" := by
  decide

/-- C3 (amended): the amount rule sets the draft's amount to the numeric text
captured by the earliest match of the amount regex; it yields "50" exactly
when that earliest capture is "50" (e.g. "amount 50" with no further digit),
not for every transcript merely containing "amount 50" or "50 dollars". -/
theorem C3_amount_captured (cats : List Category) (accts : List Account)
    (today : Int) (t : List Char) (d : Draft) (n : List Char)
    (h : amountRegexFirst t = some n) :
    (processVoiceCommand cats accts today t d).1.amount = n := by
  rw [processVoiceCommand_fst]
  simp [h]

/-- Witness for C3 (amended): "amount 50" captures "50". -/
theorem C3_amount_captured_witness :
    (processVoiceCommand [] [] 0 (s "amount 50") d0).1.amount = s "50" :=
  C3_amount_captured [] [] 0 (s "amount 50") d0 (s "50") (by decide)

/-- C4: for every transcript containing both "today" and "yesterday",
`processVoiceCommand` sets the draft's date to the current date — the
"today" check comes first in the `if`/`else if` chain. -/
theorem C4_today_wins (cats : List Category) (accts : List Account)
    (today : Int) (t : List Char) (d : Draft)
    (h1 : jsIncludes t (s "today") = true)
    (h2 : jsIncludes t (s "yesterday") = true) :
    (processVoiceCommand cats accts today t d).1.date = today := by
  rw [processVoiceCommand_fst]
  simp [h1]

/-- Witness for C4 at the transcript "today and yesterday". -/
theorem C4_today_wins_witness :
    (processVoiceCommand [] [] 7 (s "today and yesterday") d0).1.date = 7 :=
  C4_today_wins [] [] 7 (s "today and yesterday") d0 (by decide) (by decide)

/-- C5: on the transcript "description lunch with clients amount 50" the
description rule captures the text after "description " lazily up to the
keyword "amount", trims it, and stores exactly "lunch with clients". -/
theorem C5_description_extraction :
    (processVoiceCommand [] [] 0
      (s "description lunch with clients amount 50") d0).1.description
      = s "lunch with clients" := by
  decide

/-- C6: the category rule sets the draft's category to the id of the first
category (in list order) whose lower-cased name prefixed by "category "
occurs in the lower-cased transcript, and leaves the field unchanged when no
known category matches; the account rule behaves identically and
independently with "account " and the account list. -/
theorem C6_first_match (cats : List Category) (accts : List Account)
    (today : Int) (raw : List Char) (d : Draft) :
    ((processFinalResult cats accts today raw d).1.category =
      match cats.find?
          (fun c => jsIncludes (lowerStr raw) ((s "category ") ++ lowerStr c.name)) with
      | some c => some c.id
      | none => d.category)
  ∧ ((processFinalResult cats accts today raw d).1.accountId =
      match accts.find?
          (fun a => jsIncludes (lowerStr raw) ((s "account ") ++ lowerStr a.name)) with
      | some a => some a.id
      | none => d.accountId) := by
  unfold processFinalResult
  rw [processVoiceCommand_fst]
  constructor
  · rw [findCategory_eq]
    cases cats.find?
        (fun c => jsIncludes (lowerStr raw) ((s "category ") ++ lowerStr c.name)) <;>
      simp
  · rw [findAccount_eq]
    cases accts.find?
        (fun a => jsIncludes (lowerStr raw) ((s "account ") ++ lowerStr a.name)) <;>
      simp

/-- C7: the interval rule checks "daily", "weekly", "monthly", "yearly" in
that order in an `if`/`else if` chain, so any transcript containing "daily"
gets interval DAILY no matter which other interval keywords it contains. -/
theorem C7_daily_first (cats : List Category) (accts : List Account)
    (today : Int) (t : List Char) (d : Draft)
    (h : jsIncludes t (s "daily") = true) :
    (processVoiceCommand cats accts today t d).1.recurringInterval
      = some RecurringInterval.DAILY := by
  rw [processVoiceCommand_fst]
  simp [h]

/-- Witness for C7 at a transcript containing all four interval keywords. -/
theorem C7_daily_first_witness :
    (processVoiceCommand [] [] 0
      (s "daily weekly monthly yearly") d0).1.recurringInterval
      = some RecurringInterval.DAILY :=
  C7_daily_first [] [] 0 (s "daily weekly monthly yearly") d0 (by decide)

/-- C8: the create-mode default draft has type EXPENSE, empty amount and
description, the id of the first account flagged `isDefault` (none when no
account is flagged), the current date, and `isRecurring` false. -/
theorem C8_create_defaults (accounts : List Account) (today : Int) :
    (createDefaults accounts today).type = TxType.EXPENSE
  ∧ (createDefaults accounts today).amount = s ""
  ∧ (createDefaults accounts today).description = s ""
  ∧ (createDefaults accounts today).accountId
      = (accounts.find? (fun ac => ac.isDefault)).map (fun ac => ac.id)
  ∧ (createDefaults accounts today).date = today
  ∧ (createDefaults accounts today).isRecurring = false :=
  ⟨rfl, rfl, rfl, rfl, rfl, rfl⟩

/-- C9: for every non-null scan result, `handleScanComplete` unconditionally
overwrites amount and date, overwrites description and category only when
they are present (and non-empty, the JS truthiness test), leaves them
unchanged when absent, and changes no other field. -/
theorem C9_scan_frame (sdata : ScannedData) (d : Draft) :
    (handleScanComplete (some sdata) d).amount = (toString sdata.amount).data
  ∧ (handleScanComplete (some sdata) d).date = sdata.date
  ∧ (sdata.description = none →
      (handleScanComplete (some sdata) d).description = d.description)
  ∧ (∀ ds, sdata.description = some ds → ds ≠ [] →
      (handleScanComplete (some sdata) d).description = ds)
  ∧ (sdata.category = none →
      (handleScanComplete (some sdata) d).category = d.category)
  ∧ (∀ c, sdata.category = some c → c ≠ [] →
      (handleScanComplete (some sdata) d).category = some c)
  ∧ (handleScanComplete (some sdata) d).type = d.type
  ∧ (handleScanComplete (some sdata) d).accountId = d.accountId
  ∧ (handleScanComplete (some sdata) d).isRecurring = d.isRecurring
  ∧ (handleScanComplete (some sdata) d).recurringInterval = d.recurringInterval := by
  unfold handleScanComplete
  cases hdesc : sdata.description <;> cases hcat : sdata.category
  · simp_all
  · rename_i c
    by_cases hc : c.isEmpty = true <;> simp_all [List.isEmpty_iff]
  · rename_i ds
    by_cases hds : ds.isEmpty = true <;> simp_all [List.isEmpty_iff]
  · rename_i ds c
    by_cases hds : ds.isEmpty = true <;> by_cases hc : c.isEmpty = true <;>
      simp_all [List.isEmpty_iff]

/-- Witness for C9: a scan result with amount, date and description but no
category updates amount, date, description and leaves the category alone. -/
theorem C9_scan_frame_witness :
    (handleScanComplete (some ⟨125, 20, some (s "coffee"), none⟩) d0).description
      = s "coffee"
  ∧ (handleScanComplete (some ⟨125, 20, some (s "coffee"), none⟩) d0).category
      = d0.category
  ∧ (handleScanComplete (some ⟨125, 20, some (s "coffee"), none⟩) d0).amount
      = (toString (125 : Int)).data :=
  ⟨(C9_scan_frame ⟨125, 20, some (s "coffee"), none⟩ d0).2.2.2.1 (s "coffee") rfl
      (by decide),
   (C9_scan_frame ⟨125, 20, some (s "coffee"), none⟩ d0).2.2.2.2.1 rfl,
   (C9_scan_frame ⟨125, 20, some (s "coffee"), none⟩ d0).1⟩

/-- C10: a transcript matching none of the nine voice rules leaves the draft
unchanged field for field and does not trigger the submission pipeline. -/
theorem C10_no_rule_no_change (cats : List Category) (accts : List Account)
    (today : Int) (t : List Char) (d : Draft)
    (h1 : jsIncludes t (s "expense") = false)
    (h2 : jsIncludes t (s "spending") = false)
    (h3 : jsIncludes t (s "income") = false)
    (h4 : jsIncludes t (s "earning") = false)
    (h5 : amountRegexFirst t = none)
    (h6 : jsIncludes t (s "today") = false)
    (h7 : jsIncludes t (s "yesterday") = false)
    (h8 : descriptionMatch t = none)
    (h9 : findCategory cats t = none)
    (h10 : findAccount accts t = none)
    (h11 : jsIncludes t (s "recurring yes") = false)
    (h12 : jsIncludes t (s "set recurring") = false)
    (h13 : jsIncludes t (s "recurring no") = false)
    (h14 : jsIncludes t (s "not recurring") = false)
    (h15 : jsIncludes t (s "daily") = false)
    (h16 : jsIncludes t (s "weekly") = false)
    (h17 : jsIncludes t (s "monthly") = false)
    (h18 : jsIncludes t (s "yearly") = false)
    (h19 : jsIncludes t (s "submit") = false)
    (h20 : jsIncludes t (s "save transaction") = false) :
    processVoiceCommand cats accts today t d = (d, false) := by
  have hfst := processVoiceCommand_fst cats accts today t d
  rw [h5, h8, h9, h10] at hfst
  simp only [h1, h2, h3, h4, h6, h7, h11, h12, h13, h14, h15, h16, h17, h18,
    Bool.or_self, Bool.or_false, Bool.false_or, if_false, Option.getD_none] at hfst
  have hsnd : (processVoiceCommand cats accts today t d).2 = false := by
    rw [processVoiceCommand_snd]
    simp [submitRequested, h19, h20]
  exact Prod.ext (by rw [hfst]; rfl) hsnd

/-- Witness for C10 at the transcript "hello there". -/
theorem C10_no_rule_no_change_witness :
    processVoiceCommand [] [] 0 (s "hello there") d0 = (d0, false) :=
  C10_no_rule_no_change [] [] 0 (s "hello there") d0 (by decide) (by decide)
    (by decide) (by decide) (by decide) (by decide) (by decide) (by decide)
    (by decide) (by decide) (by decide) (by decide) (by decide) (by decide)
    (by decide) (by decide) (by decide) (by decide) (by decide) (by decide)

end MoneyMap
